import Mathlib

set_option autoImplicit false

/-!
Verification of the Movie Catalog Service (`backend/app.py`).

The service is a Flask + SQLAlchemy CRUD application over a single `movies`
table.  We shallowly embed its data model and the pure content of its request
handlers: the database table becomes a `List Movie`, query-string arguments
become `Option String` fields, JSON payload values become a small inductive
`JVal`, and each handler becomes a Lean function from the request data and the
current store to a result and a new store.  Python-specific behaviours that the
code relies on (`int(...)` conversion, string `strip`, falsy-`or` defaulting)
are embedded as explicit helper functions.
-/

/-- A JSON scalar value as it can appear for the `rating` field of a request
payload.  `jrat` stands for a non-integral JSON number (Python `float`);
`jstr` for a JSON string, `jint` for an integral number, `jbool` for a
boolean and `jnull` for `null` (Python `None`). -/
inductive JVal where
  | jnull : JVal
  | jbool : Bool → JVal
  | jint : Int → JVal
  | jrat : ℚ → JVal
  | jstr : String → JVal
deriving DecidableEq, Repr

/-- Python `str.strip()`: drop whitespace from both ends.  (Defined over the
character list so that it evaluates by kernel reduction.) -/
def pyStrip (s : String) : String :=
  String.mk (((s.data.dropWhile Char.isWhitespace).reverse.dropWhile Char.isWhitespace).reverse)

/-- Python `str.lower()` (ASCII case folding, as the code only compares
against ASCII constants). -/
def pyLower (s : String) : String :=
  String.mk (s.data.map Char.toLower)

/-- Python `int(s)` on a string: surrounding whitespace is stripped, then an
optional sign followed by a non-empty run of digits is accepted; anything
else raises `ValueError` (modelled as `none`).  (Digit-group underscores of
Python numeric literals are not modelled; no claim involves them.) -/
def pyParseIntDigits (l : List Char) : Option Nat :=
  if l ≠ [] ∧ l.all Char.isDigit then
    some (l.foldl (fun a c => a * 10 + (c.toNat - 48)) 0)
  else
    none

/-- String part of Python `int(...)`: see `pyParseIntDigits`. -/
def pyParseInt (s : String) : Option Int :=
  match (pyStrip s).data with
  | [] => none
  | '+' :: rest => (pyParseIntDigits rest).map Int.ofNat
  | '-' :: rest => (pyParseIntDigits rest).map (fun n => -(n : Int))
  | l => (pyParseIntDigits l).map Int.ofNat

/-- Python truncation toward zero, used by `int(...)` on a `float`. -/
def pyTrunc (q : ℚ) : Int :=
  if 0 ≤ q then ⌊q⌋ else ⌈q⌉

/-- Python `int(v)` on an arbitrary value: `none` models a raised
`ValueError`/`TypeError`.  `int(None)` raises, `int(True) = 1`,
`int(False) = 0`, a float truncates toward zero, a string is parsed. -/
def pyInt : JVal → Option Int
  | .jnull => none
  | .jbool b => some (if b then 1 else 0)
  | .jint n => some n
  | .jrat q => some (pyTrunc q)
  | .jstr s => pyParseInt s

/-- Python `str(v).strip() == ""`: only a whitespace-only string satisfies it
(`str(None) = "None"`, `str(True) = "True"`, numbers print non-empty). -/
def pyStrStripEmpty : JVal → Bool
  | .jstr s => pyStrip s == ""
  | _ => false

/-- Python `x or default` for an optional string argument: `None` and the
empty string are falsy and give the default. -/
def pyOr (o : Option String) (d : String) : String :=
  match o with
  | none => d
  | some s => if s == "" then d else s

/-- One row of the `movies` table.  `created_at` is the creation timestamp
(modelled as a natural number, only its ordering and immutability matter). -/
structure Movie where
  id : Int
  title : String
  genre : String
  rating : Int
  image_url : String
  created_at : Nat
deriving DecidableEq, Repr

/-- The request JSON body, restricted to the four fields the service reads.
A `none` field is absent from the payload (`"f" in data` is false).  The
three text fields are modelled as strings: the handlers call `.strip()` on
them, which assumes string (or absent/falsy) values; the `rating` field is
kept fully general since the code guards its conversion with `try/except`. -/
structure Payload where
  title : Option String
  genre : Option String
  rating : Option JVal
  imageUrl : Option String
deriving DecidableEq, Repr

/-- The `errors` dict built by `validate_movie_payload`, keyed by the four
field names; `none` means the key is absent. -/
structure VErrors where
  title : Option String
  genre : Option String
  rating : Option String
  imageUrl : Option String
deriving DecidableEq, Repr

/-- The empty `errors` dict. -/
def VErrors.empty : VErrors := ⟨none, none, none, none⟩

/-- Python truthiness of the `errors` dict: non-empty. -/
def VErrors.hasErrors (e : VErrors) : Bool :=
  e.title.isSome || e.genre.isSome || e.rating.isSome || e.imageUrl.isSome

/-- Check `require(field)` for the three string fields: absent, or
`str(value).strip() == ""`, yields `"Required"`. -/
def requireStr (v : Option String) : Option String :=
  match v with
  | none => some "Required"
  | some s => if pyStrip s == "" then some "Required" else none

/-- Check `require("rating")`: absent, or `str(value).strip() == ""`, yields
`"Required"`. -/
def requireVal (v : Option JVal) : Option String :=
  match v with
  | none => some "Required"
  | some x => if pyStrStripEmpty x then some "Required" else none

/-- Validator `validate_movie_payload(data, partial=...)`.  In full mode the four
`require` checks run first; the per-field checks then overwrite the entry of
any present field that fails its rule, exactly as the Python dict updates
do.  The rating rule: `int(rating)` must succeed and land in `[1, 10]`. -/
def validate_movie_payload (data : Payload) (partialMode : Bool) : VErrors :=
  let e0 : VErrors :=
    if partialMode then VErrors.empty
    else
      { title := requireStr data.title
        genre := requireStr data.genre
        rating := requireVal data.rating
        imageUrl := requireStr data.imageUrl }
  let e1 :=
    match data.title with
    | some t => if (pyStrip t).length < 1 then { e0 with title := some "Title cannot be empty" } else e0
    | none => e0
  let e2 :=
    match data.genre with
    | some g => if (pyStrip g).length < 1 then { e1 with genre := some "Genre cannot be empty" } else e1
    | none => e1
  let e3 :=
    match data.imageUrl with
    | some u => if (pyStrip u).length < 5 then { e2 with imageUrl := some "Provide a valid image URL" } else e2
    | none => e2
  match data.rating with
  | some v =>
      match pyInt v with
      | some r =>
          if r < 1 ∨ r > 10 then { e3 with rating := some "Rating must be 1â€“10" } else e3
      | none => { e3 with rating := some "Rating must be a number" }
  | none => e3

/-- Parser `parse_int_arg(name, default, min_v, max_v)`: a missing or empty raw
argument gives the default (unclamped, as in the code); a raw value that
fails `int(...)` raises `ValueError` with the message `"{name} must be an
integer"` (the `.error` case); a parsed value is clamped below by `min_v`
and above by `max_v` when those bounds are given. -/
def parse_int_arg (name : String) (raw : Option String) (default : Int)
    (min_v max_v : Option Int) : Except String Int :=
  match raw with
  | none => .ok default
  | some s =>
      if s == "" then .ok default
      else
        match pyParseInt s with
        | none => .error (name ++ " must be an integer")
        | some v =>
            let v1 := match min_v with
              | some lo => if v < lo then lo else v
              | none => v
            let v2 := match max_v with
              | some hi => if v1 > hi then hi else v1
              | none => v1
            .ok v2

/-- Predicate `startsWithChars p l` holds when `p` is an initial segment of `l`. -/
def startsWithChars : List Char → List Char → Bool
  | [], _ => true
  | _ :: _, [] => false
  | a :: as, b :: bs => a == b && startsWithChars as bs

/-- Predicate `hasSubstrChars n h` holds when `n` occurs contiguously inside `h`. -/
def hasSubstrChars (needle : List Char) : List Char → Bool
  | [] => startsWithChars needle []
  | b :: bs => startsWithChars needle (b :: bs) || hasSubstrChars needle bs

/-- SQL `title ILIKE '%q%'` for a wildcard-free `q`: case-insensitive
substring match.  (LIKE metacharacters inside `q` are not modelled; no claim
involves them.) -/
def ilike (t q : String) : Bool :=
  hasSubstrChars (pyLower q).data (pyLower t).data

/-- The four recognised sort columns. -/
inductive SortKey where
  | title : SortKey
  | genre : SortKey
  | rating : SortKey
  | createdAt : SortKey
deriving DecidableEq, Repr

/-- Lookup `sort_map.get(sort, Movie.created_at)`: resolve the `sort` parameter,
falling back to the creation timestamp for unrecognised values. -/
def resolveSort (s : String) : SortKey :=
  if s == "title" then .title
  else if s == "genre" then .genre
  else if s == "rating" then .rating
  else if s == "createdAt" then .createdAt
  else .createdAt

/-- The effective direction string:
`(request.args.get("dir") or "desc").strip().lower()`. -/
def direction (dirArg : Option String) : String :=
  pyLower (pyStrip (pyOr dirArg "desc"))

/-- Whether the list query orders ascending: the code compares the effective
direction string with `"asc"`. -/
def dirIsAsc (dirArg : Option String) : Bool :=
  direction dirArg == "asc"

/-- The value of the resolved sort column, compared with `Ordering`. -/
def sortColCmp (k : SortKey) (a b : Movie) : Ordering :=
  match k with
  | .title => compare a.title b.title
  | .genre => compare a.genre b.genre
  | .rating => compare a.rating b.rating
  | .createdAt => compare a.created_at b.created_at

/-- The total `ORDER BY sort_col dir, id dir` ordering: the resolved column
first, then `id` as tie-break, both in the same direction. -/
def movieLE (k : SortKey) (asc : Bool) (a b : Movie) : Bool :=
  match sortColCmp k a b with
  | .lt => asc
  | .gt => !asc
  | .eq => if asc then decide (a.id ≤ b.id) else decide (b.id ≤ a.id)

/-- The record sequence the database returns for the ordered query. -/
def sortMovies (k : SortKey) (asc : Bool) (l : List Movie) : List Movie :=
  l.mergeSort (movieLE k asc)

/-- The `WHERE` clause of the list query: `title ILIKE '%q%'` when `q` is
non-empty and `genre = :genre` when `genre` is non-empty, conjoined. -/
def matchesFilters (q genre : String) (m : Movie) : Bool :=
  (q == "" || ilike m.title q) && (genre == "" || m.genre == genre)

/-- The successful JSON body of `GET /api/movies`. -/
structure ListOk where
  items : List Movie
  total : Nat
  page : Int
  pageSize : Int
  totalPages : Int
deriving DecidableEq, Repr

/-- Result of `GET /api/movies`: a 400 `ValueError` message or a 200 body. -/
inductive ListResult where
  | error : String → ListResult
  | ok : ListOk → ListResult
deriving DecidableEq, Repr

/-- HTTP status of a list result. -/
def ListResult.status : ListResult → Nat
  | .error _ => 400
  | .ok _ => 200

/-- The query-string arguments of a list request (each `none` when absent). -/
structure ListArgs where
  page : Option String
  pageSize : Option String
  q : Option String
  genre : Option String
  sort : Option String
  dir : Option String
deriving DecidableEq, Repr

/-- The filtered record set of a list request: `q` and `genre` are read with
the falsy-`or` defaults and stripped, and applied as `WHERE` clauses. -/
def filteredMovies (store : List Movie) (a : ListArgs) : List Movie :=
  store.filter (matchesFilters (pyStrip (pyOr a.q "")) (pyStrip (pyOr a.genre "")))

/-- The filtered record set in the requested order: the resolved sort column
(after the falsy-`or` default and strip), in the resolved direction. -/
def orderedMovies (store : List Movie) (a : ListArgs) : List Movie :=
  sortMovies (resolveSort (pyStrip (pyOr a.sort "createdAt"))) (dirIsAsc a.dir)
    (filteredMovies store a)

/-- Handler of `GET /api/movies` (`list_movies`): parse and clamp `page` and `pageSize`
(propagating `ValueError` as a 400), resolve filters, sort column and
direction, filter and order the store, count `total` before pagination,
slice with `offset((page-1)*page_size).limit(page_size)`, and compute
`total_pages = (total + page_size - 1) // page_size if page_size else 1`
(Python floor division on the non-negative numerator). -/
def list_movies (store : List Movie) (a : ListArgs) : ListResult :=
  match parse_int_arg "page" a.page 1 (some 1) none with
  | .error e => .error e
  | .ok page =>
  match parse_int_arg "pageSize" a.pageSize 10 (some 1) (some 50) with
  | .error e => .error e
  | .ok pageSize =>
      let sorted := orderedMovies store a
      let total := sorted.length
      let items := (sorted.drop ((page - 1) * pageSize).toNat).take pageSize.toNat
      let totalPages : Int :=
        if pageSize ≠ 0 then Int.fdiv ((total : Int) + pageSize - 1) pageSize else 1
      .ok ⟨items, total, page, pageSize, totalPages⟩

/-- The fixed genre rotation used by the seeder. -/
def seedGenres : List String :=
  ["Action", "Comedy", "Drama", "Horror", "Sci-Fi", "Romance", "Thriller", "Animation"]

/-- The i-th synthesized record (1-indexed), as built in the seeding loop:
genre `genres[(i-1) % 8]`, rating `((i-1) % 10) + 1`, a placeholder image
URL embedding `i`, and a database-assigned id (modelled as consecutive from
`nextId`) and creation timestamp `now`. -/
def seededMovie (nextId : Int) (now : Nat) (i : Nat) : Movie :=
  { id := nextId + (i - 1)
    title := "Movie " ++ toString i
    genre := seedGenres.getD ((i - 1) % 8) ""
    rating := ((i : Int) - 1) % 10 + 1
    image_url := "https://via.placeholder.com/300x200.png?text=Movie+" ++ toString i
    created_at := now }

/-- Seeder `seed_if_empty(min_count=30)`: when the current count is below 30 the
loop `for i in range(1, min_count + 1)` builds 30 synthesized records and
commits them all; otherwise the store is returned untouched. -/
def seed_if_empty (nextId : Int) (now : Nat) (store : List Movie) : List Movie :=
  if store.length ≥ 30 then store
  else store ++ (List.range 30).map (fun k => seededMovie nextId now (k + 1))

/-- Result of `POST /api/movies`: a 400 with the validation details, or a
201 with the created record. -/
inductive CreateResult where
  | badRequest : VErrors → CreateResult
  | created : Movie → CreateResult
deriving DecidableEq, Repr

/-- HTTP status of a create result. -/
def CreateResult.status : CreateResult → Nat
  | .badRequest _ => 400
  | .created _ => 201

/-- Handler of `POST /api/movies` (`create_movie`): validate in full mode; on any error
return 400 with the details and leave the store alone; otherwise append a
record built from the stripped fields (the `getD` fallbacks are unreachable:
full validation guarantees every field is present and `int(rating)`
succeeds), with a database-assigned id and timestamp. -/
def create_movie (nextId : Int) (now : Nat) (store : List Movie) (data : Payload) :
    CreateResult × List Movie :=
  let errors := validate_movie_payload data false
  if errors.hasErrors then (.badRequest errors, store)
  else
    let m : Movie :=
      { id := nextId
        title := pyStrip (data.title.getD "")
        genre := pyStrip (data.genre.getD "")
        rating := (data.rating.bind pyInt).getD 0
        image_url := pyStrip (data.imageUrl.getD "")
        created_at := now }
    (.created m, store ++ [m])

/-- Result of `PUT /api/movies` by id: 404, 400 with details, or 200 with the
updated record. -/
inductive UpdateResult where
  | notFound : UpdateResult
  | badRequest : VErrors → UpdateResult
  | ok : Movie → UpdateResult
deriving DecidableEq, Repr

/-- HTTP status of an update result. -/
def UpdateResult.status : UpdateResult → Nat
  | .notFound => 404
  | .badRequest _ => 400
  | .ok _ => 200

/-- The four `if "f" in data` assignments of the update handler: each
supplied field is stripped (or `int`-converted for `rating`; its `getD`
fallback is unreachable after partial validation) and written onto the
record; `id` and `created_at` are never touched. -/
def applyFields (m : Movie) (data : Payload) : Movie :=
  { m with
    title := match data.title with | some t => pyStrip t | none => m.title
    genre := match data.genre with | some g => pyStrip g | none => m.genre
    rating := match data.rating with | some v => (pyInt v).getD m.rating | none => m.rating
    image_url := match data.imageUrl with | some u => pyStrip u | none => m.image_url }

/-- Lookup `Movie.query.get(movie_id)`: first record with the given primary key. -/
def findById (store : List Movie) (movie_id : Int) : Option Movie :=
  store.find? (fun m => m.id == movie_id)

/-- Handler of `PUT /api/movies` by id (`update_movie`): look up the record (404 when
absent), validate the payload in partial mode (400 on any error, store
untouched), then apply the supplied fields in place and commit. -/
def update_movie (store : List Movie) (movie_id : Int) (data : Payload) :
    UpdateResult × List Movie :=
  match findById store movie_id with
  | none => (.notFound, store)
  | some m =>
      let errors := validate_movie_payload data true
      if errors.hasErrors then (.badRequest errors, store)
      else
        (.ok (applyFields m data),
         store.map (fun x => if x.id == movie_id then applyFields x data else x))

/-- The `currentPageSize` computation of `GET /api/stats`: the same
`parse_int_arg("pageSize", 10, min_v=1, max_v=50)` call as the list
endpoint, but a raised `ValueError` is caught and replaced by 10. -/
def stats_page_size (raw : Option String) : Int :=
  match parse_int_arg "pageSize" raw 10 (some 1) (some 50) with
  | .ok v => v
  | .error _ => 10

/-! ## Concrete sample records used in witnesses and counterexamples -/

/-- A sample pre-existing record. -/
def movieA : Movie :=
  { id := 1, title := "Alpha", genre := "Drama", rating := 5
    image_url := "https://img.example/a.png", created_at := 100 }

/-- A second sample record. -/
def movieB : Movie :=
  { id := 2, title := "Beta", genre := "Comedy", rating := 7
    image_url := "https://img.example/b.png", created_at := 200 }

/-- A list request with no query parameters. -/
def emptyArgs : ListArgs := ⟨none, none, none, none, none, none⟩

/-! ## C2 — seeding below the threshold -/

/-- C2 (counterexample): the claim says that from any count strictly below
30 seeding ends at exactly 30 records.  Starting from one record (count
1 < 30), the seeder appends all 30 synthesized records, ending at 31. -/
theorem C2_counterexample :
    [movieA].length < 30 ∧ (seed_if_empty 2 0 [movieA]).length ≠ 30 := by
  constructor
  · decide
  · show (seed_if_empty 2 0 [movieA]).length ≠ 30
    rw [seed_if_empty, if_neg (by decide)]
    simp

/-- C2 (amended): whenever the record count is strictly below 30, seeding
appends exactly 30 synthesized records, so the final count is the initial
count plus 30 (at least 30, and exactly 30 only from an empty store). -/
theorem C2_seed_reaches_threshold (nextId : Int) (now : Nat) (store : List Movie)
    (h : store.length < 30) :
    (seed_if_empty nextId now store).length = store.length + 30 := by
  rw [seed_if_empty, if_neg (by omega)]
  simp

/-- C2 (witness): the amended theorem applied to the empty store. -/
theorem C2_witness :
    ([] : List Movie).length < 30 ∧
      (seed_if_empty 1 0 []).length = ([] : List Movie).length + 30 :=
  ⟨by decide, C2_seed_reaches_threshold 1 0 [] (by decide)⟩

/-! ## C3 — seeding idempotence and seeded content -/

/-- C3: seeding is a no-op once the count is at least 30; and from the empty
store it produces at least 30 records, where the i-th seeded record
(1-indexed) has rating `((i-1) mod 10) + 1` and the `((i-1) mod 8)`-th genre
of the fixed rotation. -/
theorem C3_seed_idempotent_and_cycles (nextId : Int) (now : Nat) (store : List Movie) :
    (store.length ≥ 30 → seed_if_empty nextId now store = store) ∧
    (seed_if_empty nextId now []).length ≥ 30 ∧
    (∀ i : Nat, i ≤ 30 → 1 ≤ i →
      ((seed_if_empty nextId now []).getD (i - 1) movieA).rating = ((i : Int) - 1) % 10 + 1 ∧
      ((seed_if_empty nextId now []).getD (i - 1) movieA).genre = seedGenres.getD ((i - 1) % 8) "") := by
  refine ⟨fun h => by rw [seed_if_empty, if_pos h], ?_, ?_⟩
  · rw [seed_if_empty, if_neg (by decide)]
    simp
  · intro i h30 h1
    have hi : i - 1 < 30 := by omega
    have key : (seed_if_empty nextId now []).getD (i - 1) movieA
        = seededMovie nextId now ((i - 1) + 1) := by
      rw [seed_if_empty, if_neg (by decide), List.nil_append,
        List.getD_eq_getElem?_getD, List.getElem?_map, List.getElem?_range hi]
      rfl
    have hsucc : (i - 1) + 1 = i := by omega
    rw [key, hsucc]
    exact ⟨rfl, rfl⟩

/-- C3 (witness): for the store produced by seeding the empty store (30
records) seeding is a no-op, and the 5th and 9th seeded records have rating
5 and 9 and genres `Sci-Fi` and `Action` as the cycles dictate. -/
theorem C3_witness :
    seed_if_empty 1 0 (seed_if_empty 1 0 []) = seed_if_empty 1 0 [] ∧
    (seed_if_empty 1 0 []).length ≥ 30 ∧
    ((seed_if_empty 1 0 []).getD 4 movieA).rating = (5 : Int) - 1 % 10 + 1 ∧
    ((seed_if_empty 1 0 []).getD 8 movieA).genre = seedGenres.getD 0 "" := by
  obtain ⟨hidem, hlen, hcyc⟩ := C3_seed_idempotent_and_cycles 1 0 (seed_if_empty 1 0 [])
  obtain ⟨-, hlen2, hcyc2⟩ := C3_seed_idempotent_and_cycles 1 0 []
  refine ⟨hidem hlen, hlen, ?_, ?_⟩
  · have h5 := (hcyc2 5 (by decide) (by decide)).1
    rw [show (5 : Nat) - 1 = 4 from rfl] at h5
    rw [h5]
    decide
  · have h9 := (hcyc2 9 (by decide) (by decide)).2
    rw [show (9 : Nat) - 1 = 8 from rfl] at h9
    rw [h9]

/-! ## C7 — direction parameter resolution -/

/-- C7 (counterexample): the claim says every value other than the exact
string `asc` is treated as `desc`, but the code lowercases (and strips) the
parameter first: `dir=ASC` differs from `asc` yet orders ascending. -/
theorem C7_counterexample :
    ¬("ASC" = "asc") ∧ dirIsAsc (some "ASC") = true := by
  constructor
  · decide
  · rfl

/-- C7 (amended): `dir` defaults to `desc` when absent, and a supplied value
is treated as `asc` exactly when its whitespace-stripped, lowercased form is
the string `asc`; every other value is treated as `desc` (the non-ascending
branch of the query ordering). -/
theorem C7_dir_resolution :
    dirIsAsc none = false ∧
    (∀ s : String, dirIsAsc (some s) = (pyLower (pyStrip s) == "asc")) := by
  refine ⟨rfl, fun s => ?_⟩
  rw [dirIsAsc, direction, pyOr]
  by_cases h : s == ""
  · rw [if_pos h]
    rw [show s = "" from by simpa using h]
    rfl
  · rw [if_neg h]

/-! ## C9 — stats pageSize echo -/

/-- C9: the stats endpoint computes its echoed `pageSize` with the very
`parse_int_arg("pageSize", 10, 1, 50)` call of the list endpoint, except
that a parse failure yields the default 10 instead of a 400; consequently
whenever the list endpoint succeeds the two report the same effective
`pageSize`, and the stats endpoint never fails on this parameter. -/
theorem C9_stats_pageSize (raw : Option String) :
    (∀ e, parse_int_arg "pageSize" raw 10 (some 1) (some 50) = .error e →
        stats_page_size raw = 10) ∧
    (∀ v, parse_int_arg "pageSize" raw 10 (some 1) (some 50) = .ok v →
        stats_page_size raw = v) ∧
    (∀ (store : List Movie) (a : ListArgs) (r : ListOk),
        a.pageSize = raw → list_movies store a = .ok r →
        r.pageSize = stats_page_size raw) := by
  refine ⟨fun e he => ?_, fun v hv => ?_, fun store a r hraw hok => ?_⟩
  · rw [stats_page_size, he]
  · rw [stats_page_size, hv]
  · rw [list_movies] at hok
    cases hpage : parse_int_arg "page" a.page 1 (some 1) none with
    | error e => rw [hpage] at hok; exact absurd hok (by simp)
    | ok p =>
      rw [hpage] at hok
      cases hps : parse_int_arg "pageSize" a.pageSize 10 (some 1) (some 50) with
      | error e => rw [hps] at hok; exact absurd hok (by simp)
      | ok ps =>
        rw [hps] at hok
        simp only [ListResult.ok.injEq] at hok
        rw [← hok]
        rw [stats_page_size, ← hraw, hps]

/-- C9 (witness): for the malformed raw value `"abc"` the parse fails and
stats echoes 10; for `"7"` both the list endpoint and stats report 7. -/
theorem C9_witness :
    stats_page_size (some "abc") = 10 ∧ stats_page_size (some "7") = 7 := by
  have h1 := (C9_stats_pageSize (some "abc")).1 "pageSize must be an integer" rfl
  have h2 := (C9_stats_pageSize (some "7")).2.1 7 rfl
  exact ⟨h1, h2⟩

/-! ## C4 — rating validation -/

/-- The rating entry of the validation result for a payload that supplies
`rating`, computed in isolation: the three text-field checks never touch the
`rating` key, so only `require` (full mode) and the rating rule matter. -/
theorem validate_rating_of_present (data : Payload) (pm : Bool) (v : JVal)
    (h : data.rating = some v) :
    (validate_movie_payload data pm).rating =
      match pyInt v with
      | none => some "Rating must be a number"
      | some r =>
          if r < 1 ∨ r > 10 then some "Rating must be 1â€“10"
          else if pm then none else requireVal (some v) := by
  obtain ⟨t, g, rr, u⟩ := data
  simp only at h
  subst h
  cases hpi : pyInt v with
  | none =>
      cases pm <;> cases t <;> cases g <;> cases u <;>
        simp only [validate_movie_payload, hpi]
  | some r =>
      cases pm <;> cases t <;> cases g <;> cases u <;>
        simp only [validate_movie_payload, hpi] <;> split_ifs <;> rfl

/-- A value on which `int(...)` succeeds is not whitespace-blank (so the
`require` check cannot flag a parsable rating). -/
theorem pyInt_some_not_blank (v : JVal) (r : Int) (h : pyInt v = some r) :
    pyStrStripEmpty v = false := by
  cases v with
  | jstr s =>
      simp only [pyStrStripEmpty]
      by_cases hs : pyStrip s == ""
      · exfalso
        have hdata : (pyStrip s).data = [] := by
          have : pyStrip s = "" := by simpa using hs
          rw [this]
        simp only [pyInt, pyParseInt] at h
        rw [hdata] at h
        exact absurd h (by simp)
      · simpa using hs
  | jnull => rfl
  | jbool b => rfl
  | jint n => rfl
  | jrat q => rfl

/-- C4: whenever the payload supplies `rating`, validation flags the field
exactly when Python `int(...)` fails on the value or the converted integer
falls outside `[1, 10]`; in particular every value that does not convert to
an integer is flagged. -/
theorem C4_rating_error_iff (data : Payload) (pm : Bool) (v : JVal)
    (h : data.rating = some v) :
    (validate_movie_payload data pm).rating.isSome = true ↔
      (pyInt v = none ∨ ∃ r, pyInt v = some r ∧ (r < 1 ∨ 10 < r)) := by
  rw [validate_rating_of_present data pm v h]
  cases hpi : pyInt v with
  | none => simp
  | some r =>
      by_cases hr : r < 1 ∨ r > 10
      · simp [hr]
      · have hblank := pyInt_some_not_blank v r hpi
        cases pm <;> simp [hr, hblank, requireVal]

/-- C4 (witness): the integer 15 is flagged (parses but is out of range);
instantiated through the main theorem at a concrete payload. -/
theorem C4_witness :
    (validate_movie_payload ⟨none, none, some (.jint 15), none⟩ true).rating.isSome = true :=
  (C4_rating_error_iff ⟨none, none, some (.jint 15), none⟩ true (.jint 15) rfl).mpr
    (Or.inr ⟨15, rfl, by omega⟩)

/-! ## C6 — create rejects invalid payloads without persisting -/

/-- C6: when full validation of a create payload produces any error, the
handler answers 400 with exactly that per-field details map and the store is
returned unchanged (nothing is persisted); in particular `rating = 15` puts
a `rating` entry in the details. -/
theorem C6_create_invalid_rejected (nextId : Int) (now : Nat) (store : List Movie)
    (data : Payload) (e : VErrors)
    (he : validate_movie_payload data false = e)
    (hne : e.hasErrors = true) :
    create_movie nextId now store data = (.badRequest e, store) ∧
    (CreateResult.badRequest e).status = 400 ∧
    (data.rating = some (.jint 15) → e.rating = some "Rating must be 1â€“10") := by
  refine ⟨?_, rfl, ?_⟩
  · simp only [create_movie, he, hne, if_true]
  · intro hr15
    rw [← he, validate_rating_of_present data false (.jint 15) hr15]
    decide

/-- C6 (witness): a payload with valid text fields and `rating = 15` is
rejected with a `rating` detail and does not change a one-record store. -/
theorem C6_witness :
    create_movie 7 0 [movieA] ⟨some "T", some "G", some (.jint 15), some "https://x"⟩
      = (.badRequest ⟨none, none, some "Rating must be 1â€“10", none⟩, [movieA]) ∧
    (⟨none, none, some "Rating must be 1â€“10", none⟩ : VErrors).rating.isSome = true := by
  have h := C6_create_invalid_rejected 7 0 [movieA]
    ⟨some "T", some "G", some (.jint 15), some "https://x"⟩
    ⟨none, none, some "Rating must be 1â€“10", none⟩ (by decide) (by decide)
  exact ⟨h.1, rfl⟩

/-! ## C5 — partial update touches only supplied fields -/

/-- C5: when the update handler succeeds, the returned record keeps the
looked-up record's `id` and `created_at` and every field absent from the
payload, and the new store keeps every position intact except the updated
id, where only the supplied fields (plus nothing else) may differ. -/
theorem C5_update_partial_frame (store : List Movie) (mid : Int) (data : Payload)
    (m m' : Movie) (st' : List Movie)
    (hfind : findById store mid = some m)
    (hupd : update_movie store mid data = (.ok m', st')) :
    (m'.id = m.id ∧ m'.created_at = m.created_at ∧
     (data.title = none → m'.title = m.title) ∧
     (data.genre = none → m'.genre = m.genre) ∧
     (data.rating = none → m'.rating = m.rating) ∧
     (data.imageUrl = none → m'.image_url = m.image_url)) ∧
    st'.length = store.length ∧
    (∀ (j : Nat) (x : Movie), store[j]? = some x → x.id ≠ mid → st'[j]? = some x) ∧
    (∀ (j : Nat) (x : Movie), store[j]? = some x → x.id = mid →
      ∃ y, st'[j]? = some y ∧ y.id = x.id ∧ y.created_at = x.created_at ∧
        (data.title = none → y.title = x.title) ∧
        (data.genre = none → y.genre = x.genre) ∧
        (data.rating = none → y.rating = x.rating) ∧
        (data.imageUrl = none → y.image_url = x.image_url)) := by
  simp only [update_movie, hfind] at hupd
  by_cases hE : (validate_movie_payload data true).hasErrors = true
  · rw [if_pos hE] at hupd
    exact absurd hupd (by simp)
  · rw [if_neg hE] at hupd
    simp only [Prod.mk.injEq, UpdateResult.ok.injEq] at hupd
    obtain ⟨hm', hst'⟩ := hupd
    subst hm'
    subst hst'
    refine ⟨⟨rfl, rfl, ?_, ?_, ?_, ?_⟩, List.length_map store _, ?_, ?_⟩
    · intro h; simp [applyFields, h]
    · intro h; simp [applyFields, h]
    · intro h; simp [applyFields, h]
    · intro h; simp [applyFields, h]
    · intro j x hjx hne
      rw [List.getElem?_map, hjx]
      simp [hne]
    · intro j x hjx heq
      refine ⟨applyFields x data, ?_, rfl, rfl, ?_, ?_, ?_, ?_⟩
      · rw [List.getElem?_map, hjx]
        simp [heq]
      · intro h; simp [applyFields, h]
      · intro h; simp [applyFields, h]
      · intro h; simp [applyFields, h]
      · intro h; simp [applyFields, h]

/-- C5 (witness): updating only `rating` on the record with id 2 keeps its
title, genre, image URL, id and timestamp, both in the response and in the
stored list. -/
theorem C5_witness :
    let upd : Movie := { movieB with rating := 9 }
    upd.title = movieB.title ∧ upd.genre = movieB.genre ∧
    upd.image_url = movieB.image_url ∧ upd.id = movieB.id ∧
    upd.created_at = movieB.created_at ∧
    ([movieA, upd] : List Movie)[0]? = some movieA := by
  intro upd
  have h := C5_update_partial_frame [movieA, movieB] 2 ⟨none, none, some (.jint 9), none⟩
    movieB upd [movieA, upd] (by decide) (by decide)
  obtain ⟨⟨hid, hca, ht, hg, -, hu⟩, -, hkeep, -⟩ := h
  exact ⟨ht rfl, hg rfl, hu rfl, hid, hca, hkeep 0 movieA (by decide) (by decide)⟩

/-! ## Pagination arithmetic -/

/-- A successfully parsed `page` is at least 1 (parsed values are clamped
below by `min_v = 1`; the default 1 is already in range). -/
theorem parse_page_ok_ge_one (raw : Option String) (v : Int)
    (h : parse_int_arg "page" raw 1 (some 1) none = .ok v) : 1 ≤ v := by
  cases raw with
  | none => simp [parse_int_arg] at h; omega
  | some s =>
      simp only [parse_int_arg] at h
      by_cases hs : s == ""
      · rw [if_pos hs] at h; simp at h; omega
      · rw [if_neg hs] at h
        cases hpi : pyParseInt s with
        | none => rw [hpi] at h; exact absurd h (by simp)
        | some w => rw [hpi] at h; simp at h; split_ifs at h <;> omega

/-- A successfully parsed `pageSize` lies in `[1, 50]` (clamped on both
sides; the default 10 is already in range). -/
theorem parse_pageSize_ok_bounds (raw : Option String) (v : Int)
    (h : parse_int_arg "pageSize" raw 10 (some 1) (some 50) = .ok v) :
    1 ≤ v ∧ v ≤ 50 := by
  cases raw with
  | none => simp [parse_int_arg] at h; omega
  | some s =>
      simp only [parse_int_arg] at h
      by_cases hs : s == ""
      · rw [if_pos hs] at h; simp at h; omega
      · rw [if_neg hs] at h
        cases hpi : pyParseInt s with
        | none => rw [hpi] at h; exact absurd h (by simp)
        | some w => rw [hpi] at h; simp at h; split_ifs at h <;> omega

/-- The code's `(total + page_size - 1) // page_size` (floor division on a
non-negative numerator) is the ceiling of the exact quotient. -/
theorem fdiv_ceil_eq (t : Nat) (ps : Int) (hps : 1 ≤ ps) :
    Int.fdiv ((t : Int) + ps - 1) ps = ⌈(t : ℚ) / (ps : ℚ)⌉ := by
  have hps0 : (0 : Int) < ps := hps
  have hq : (0 : ℚ) < (ps : ℚ) := by exact_mod_cast hps0
  rw [Int.fdiv_eq_ediv _ (le_of_lt hps0)]
  set z : Int := ((t : Int) + ps - 1) / ps with hz
  have h1 : z * ps ≤ (t : Int) + ps - 1 := Int.ediv_mul_le _ (by omega)
  have h2 : (t : Int) + ps - 1 < (z + 1) * ps := Int.lt_ediv_add_one_mul_self _ hps0
  have ha : (t : Int) ≤ z * ps := by nlinarith
  have hb : (z - 1) * ps < (t : Int) := by nlinarith
  symm
  rw [Int.ceil_eq_iff]
  constructor
  · rw [show ((z : ℚ) - 1) = ((z - 1 : Int) : ℚ) by push_cast; ring]
    rw [lt_div_iff₀ hq]
    exact_mod_cast hb
  · rw [div_le_iff₀ hq]
    exact_mod_cast ha

/-- The full response of a list request whose integer parameters parse:
items are the `(page-1)*pageSize` offset slice of the ordered filtered set,
`total` counts the filtered set, and `totalPages` is the ceiling of
`total / pageSize`. -/
theorem list_movies_ok_shape (store : List Movie) (a : ListArgs) (p ps : Int)
    (hp : parse_int_arg "page" a.page 1 (some 1) none = .ok p)
    (hps : parse_int_arg "pageSize" a.pageSize 10 (some 1) (some 50) = .ok ps) :
    list_movies store a = .ok
      ⟨((orderedMovies store a).drop ((p - 1) * ps).toNat).take ps.toNat,
       (filteredMovies store a).length, p, ps,
       ⌈((filteredMovies store a).length : ℚ) / (ps : ℚ)⌉⟩ := by
  obtain ⟨hps1, -⟩ := parse_pageSize_ok_bounds a.pageSize ps hps
  have hlen : (orderedMovies store a).length = (filteredMovies store a).length := by
    simp [orderedMovies, sortMovies, List.length_mergeSort]
  simp only [list_movies, hp, hps, hlen]
  rw [if_pos (by omega : ps ≠ 0)]
  rw [fdiv_ceil_eq _ ps hps1]

/-! ## C1 — pagination of the list endpoint -/

/-- C1: for any list request whose integer parameters parse, the response
holds the offset `(page-1)*pageSize` slice of the filtered and ordered
record sequence with at most `pageSize` records, `total` counts the matches
before pagination, and `totalPages` is the ceiling of `total / pageSize`. -/
theorem C1_list_pagination (store : List Movie) (a : ListArgs) (p ps : Int)
    (hp : parse_int_arg "page" a.page 1 (some 1) none = .ok p)
    (hps : parse_int_arg "pageSize" a.pageSize 10 (some 1) (some 50) = .ok ps) :
    ∃ r : ListOk,
      list_movies store a = .ok r ∧
      r.items = ((orderedMovies store a).drop ((p - 1) * ps).toNat).take ps.toNat ∧
      r.total = (filteredMovies store a).length ∧
      r.page = p ∧ r.pageSize = ps ∧
      r.items.length ≤ ps.toNat ∧
      r.totalPages = ⌈(r.total : ℚ) / (ps : ℚ)⌉ := by
  refine ⟨_, list_movies_ok_shape store a p ps hp hps, rfl, rfl, rfl, rfl, ?_, rfl⟩
  simp [List.length_take]

/-- C1 (witness): a parameterless request over a two-record store returns
total 2, page 1, pageSize 10, at most 10 items and `totalPages = ⌈2/10⌉`. -/
theorem C1_witness :
    ∃ r : ListOk, list_movies [movieA, movieB] emptyArgs = .ok r ∧
      r.total = 2 ∧ r.page = 1 ∧ r.pageSize = 10 ∧
      r.items.length ≤ 10 ∧ r.totalPages = ⌈(2 : ℚ) / (10 : ℚ)⌉ := by
  obtain ⟨r, hr, -, htotal, hpage, hps, hlen, hceil⟩ :=
    C1_list_pagination [movieA, movieB] emptyArgs 1 10 rfl rfl
  have ht2 : r.total = 2 := by rw [htotal]; decide
  refine ⟨r, hr, ht2, hpage, hps, hlen, ?_⟩
  rw [hceil, ht2]
  norm_num

/-! ## C10 — a page beyond the last is empty but well-formed -/

/-- C10: when `(page-1)*pageSize` reaches past the number of matches, the
request still succeeds with 200, the item list is empty, and `total` and
`totalPages` still describe the whole matching set. -/
theorem C10_beyond_last_page (store : List Movie) (a : ListArgs) (p ps : Int)
    (hp : parse_int_arg "page" a.page 1 (some 1) none = .ok p)
    (hps : parse_int_arg "pageSize" a.pageSize 10 (some 1) (some 50) = .ok ps)
    (hbeyond : ((filteredMovies store a).length : Int) ≤ (p - 1) * ps) :
    ∃ r : ListOk, list_movies store a = .ok r ∧
      (list_movies store a).status = 200 ∧
      r.items = [] ∧ r.total = (filteredMovies store a).length ∧
      r.totalPages = ⌈((filteredMovies store a).length : ℚ) / (ps : ℚ)⌉ := by
  have hshape := list_movies_ok_shape store a p ps hp hps
  have hlen : (orderedMovies store a).length = (filteredMovies store a).length := by
    simp [orderedMovies, sortMovies, List.length_mergeSort]
  have hnil : (orderedMovies store a).drop ((p - 1) * ps).toNat = [] := by
    apply List.drop_eq_nil_of_le
    rw [hlen]
    generalize hk : (p - 1) * ps = k at hbeyond
    omega
  refine ⟨_, hshape, by rw [hshape]; rfl, ?_, rfl, rfl⟩
  show ((orderedMovies store a).drop ((p - 1) * ps).toNat).take ps.toNat = []
  rw [hnil, List.take_nil]

/-- C10 (witness): page 5 of size 10 over a two-record store yields an empty
page with total 2. -/
theorem C10_witness :
    ∃ r : ListOk,
      list_movies [movieA, movieB] ⟨some "5", some "10", none, none, none, none⟩ = .ok r ∧
      r.items = [] ∧ r.total = 2 := by
  obtain ⟨r, hr, -, hitems, htotal, -⟩ :=
    C10_beyond_last_page [movieA, movieB] ⟨some "5", some "10", none, none, none, none⟩
      5 10 rfl rfl (by decide)
  exact ⟨r, hr, hitems, by rw [htotal]; decide⟩

/-! ## C8 — integer parameter handling of the list endpoint -/

/-- C8: a present, non-empty `page` or `pageSize` value that `int(...)`
cannot parse fails the whole request with a 400 `ValueError` (no silent
defaulting), while a parsable value never fails: it is clamped, `page` below
by 1 and `pageSize` into `[1, 50]`, and the request succeeds. -/
theorem C8_param_parsing (store : List Movie) (a : ListArgs) :
    (∀ s : String, a.page = some s → ¬s = "" → pyParseInt s = none →
        list_movies store a = .error "page must be an integer") ∧
    (∀ s : String, a.pageSize = some s → ¬s = "" → pyParseInt s = none →
        (list_movies store a).status = 400) ∧
    (∀ (s : String) (v : Int), pyParseInt s = some v →
        parse_int_arg "page" (some s) 1 (some 1) none = .ok (max v 1)) ∧
    (∀ (s : String) (v : Int), pyParseInt s = some v →
        parse_int_arg "pageSize" (some s) 10 (some 1) (some 50) = .ok (min (max v 1) 50)) ∧
    (∀ p ps : Int, parse_int_arg "page" a.page 1 (some 1) none = .ok p →
        parse_int_arg "pageSize" a.pageSize 10 (some 1) (some 50) = .ok ps →
        (list_movies store a).status = 200) := by
  have hblank : ∀ (s : String) (v : Int), pyParseInt s = some v → (s == "") = false := by
    intro s v hpi
    by_cases hc : s == ""
    · obtain rfl : s = "" := by simpa using hc
      rw [show pyParseInt "" = none from rfl] at hpi
      exact absurd hpi (by simp)
    · simpa using hc
  refine ⟨?_, ?_, ?_, ?_, ?_⟩
  · intro s hs hne hpi
    have hparse : parse_int_arg "page" a.page 1 (some 1) none
        = .error "page must be an integer" := by
      rw [hs]
      simp [parse_int_arg, hpi, hne]
    simp [list_movies, hparse]
  · intro s hs hne hpi
    cases hpage : parse_int_arg "page" a.page 1 (some 1) none with
    | error e => simp [list_movies, hpage, ListResult.status]
    | ok p =>
        have hparse : parse_int_arg "pageSize" a.pageSize 10 (some 1) (some 50)
            = .error "pageSize must be an integer" := by
          rw [hs]
          simp [parse_int_arg, hpi, hne]
        simp [list_movies, hpage, hparse, ListResult.status]
  · intro s v hpi
    simp [parse_int_arg, hblank s v hpi, hpi]
    split_ifs <;> omega
  · intro s v hpi
    simp [parse_int_arg, hblank s v hpi, hpi]
    split_ifs <;> omega
  · intro p ps hp hps
    rw [list_movies_ok_shape store a p ps hp hps]
    rfl

/-- C8 (witness): `page=abc` fails the request with the 400 message, `page=0`
clamps to 1, `pageSize=100` clamps to 50, and a request with no parameters
succeeds with 200. -/
theorem C8_witness :
    list_movies [] ⟨some "abc", none, none, none, none, none⟩
      = .error "page must be an integer" ∧
    parse_int_arg "page" (some "0") 1 (some 1) none = .ok (max 0 1) ∧
    parse_int_arg "pageSize" (some "100") 10 (some 1) (some 50) = .ok (min (max 100 1) 50) ∧
    (list_movies [] emptyArgs).status = 200 := by
  obtain ⟨h1, -, h3, h4, -⟩ :=
    C8_param_parsing [] ⟨some "abc", none, none, none, none, none⟩
  obtain ⟨-, -, -, -, h5⟩ := C8_param_parsing [] emptyArgs
  exact ⟨h1 "abc" rfl (by decide) rfl, h3 "0" 0 rfl, h4 "100" 100 rfl, h5 1 10 rfl rfl⟩
